import Mathlib

/-!
Verification of the MFA login orchestration and session-establishment spec
against the defguard web client sources: the zustand auth store
(`useAuthStore`) and the `MFARecovery` login route.  Parts of the system
that the spec describes but whose code is not among the provided sources
(the backend recovery verifier, the retry ceiling, the shared Button
loading behaviour, the redirect resolution and the subscriber side of the
login subject) are modelled from the spec and marked as such.
-/

/-- An authenticated user; only identity and the admin flag matter here. -/
structure User where
  id : Nat
  is_admin : Bool
deriving Repr, DecidableEq

/-- Payload published on `loginSubject`.  The `LoginSubjectData` type from
shared/types is not among the sources; only its role as the published
session event matters, so it is kept as a bare payload. -/
structure LoginSubjectData where
  payload : Nat
deriving Repr, DecidableEq

/-- An rxjs `Subject` as used for `loginSubject`: an object identity (two
subjects are the same instance iff they carry the same `instanceId`)
together with the currently registered subscribers. -/
structure Subject where
  instanceId : Nat
  subscribers : List Nat
deriving Repr, DecidableEq

/-- `subject.next(data)`: every currently registered subscriber receives
`data`; the result lists the deliveries. -/
def Subject.next (s : Subject) (data : LoginSubjectData) :
    List (Nat × LoginSubjectData) :=
  s.subscribers.map fun sub => (sub, data)

/-- Data fields of the zustand auth store.  The two function fields of the
`AuthStore` interface, `setState` and `resetState`, are modelled as
operations below.  `authLocation` is not declared in the interface but is
named by the persist configuration, so it is carried as an optional
field. -/
structure AuthStoreState where
  user : Option User
  openIdParams : Option (List (String × String))
  authLocation : Option String
  loginSubject : Subject
deriving Repr, DecidableEq

/-- The store creator body: `user` and `openIdParams` start undefined and
`loginSubject` is a newly constructed Subject.  `freshId` is the identity
of that new subject; a new subject has no subscribers yet. -/
def initialAuthStore (freshId : Nat) : AuthStoreState :=
  { user := none
    openIdParams := none
    authLocation := none
    loginSubject := { instanceId := freshId, subscribers := [] } }

/-- `resetState` sets `user` and `openIdParams` to undefined; the zustand
`set` shallow-merges exactly the given keys into the current state. -/
def resetState (s : AuthStoreState) : AuthStoreState :=
  { s with user := none, openIdParams := none }

/-- The object persisted to sessionStorage.  By construction it holds only
the two keys picked by the persist configuration. -/
structure PersistedAuthStore where
  user : Option User
  authLocation : Option String
deriving Repr, DecidableEq

/-- The lodash pick of the two persisted keys, as configured on the persist
middleware of the store. -/
def persistPick (s : AuthStoreState) : PersistedAuthStore :=
  { user := s.user, authLocation := s.authLocation }

/-- Rehydration on page reload: the zustand persist middleware shallow
merges the persisted object over the freshly created initial state. -/
def rehydrate (base : AuthStoreState) (p : PersistedAuthStore) :
    AuthStoreState :=
  { base with user := p.user, authLocation := p.authLocation }

/-- C9: `resetState` sets exactly `user` and `openIdParams` to undefined
and leaves every other field unchanged; in particular `loginSubject` is the
same Subject instance, so a subscriber registered before a reset still
receives a publication made after it. -/
theorem resetState_clears_only_user_and_openIdParams (s : AuthStoreState) :
    (resetState s).user = none ∧
    (resetState s).openIdParams = none ∧
    (resetState s).loginSubject = s.loginSubject ∧
    (resetState s).authLocation = s.authLocation ∧
    (∀ sub, sub ∈ s.loginSubject.subscribers →
      ∀ d, (sub, d) ∈ (resetState s).loginSubject.next d) := by
  refine ⟨rfl, rfl, rfl, rfl, ?_⟩
  intro sub hsub d
  exact List.mem_map_of_mem _ hsub

/-- A concrete user for the witness stores. -/
def sampleUser : User := { id := 1, is_admin := true }

/-- A concrete store with one subscriber registered on the subject. -/
def sampleStore : AuthStoreState :=
  { user := some sampleUser
    openIdParams := some []
    authLocation := none
    loginSubject := { instanceId := 0, subscribers := [7] } }

/-- A concrete publication payload. -/
def sampleData : LoginSubjectData := { payload := 3 }

/-- Witness for C9 at a concrete store: subscriber 7, registered before the
reset, receives a publication made after it. -/
theorem resetState_clears_only_user_and_openIdParams_witness :
    (resetState sampleStore).loginSubject = sampleStore.loginSubject ∧
    (7, sampleData) ∈ (resetState sampleStore).loginSubject.next sampleData :=
  ⟨(resetState_clears_only_user_and_openIdParams sampleStore).2.2.1,
    (resetState_clears_only_user_and_openIdParams sampleStore).2.2.2.2 7
      (by decide) sampleData⟩

/-- C10: the persisted object is fully determined by `user` and
`authLocation` (so `openIdParams` and `loginSubject` are never persisted),
and after a reload the rehydrated store has no carried openId context and
keeps the fresh subscriber-free Subject of the new initial state, whatever
the prior store held. -/
theorem persist_drops_openIdParams_and_loginSubject
    (s t : AuthStoreState) (freshId : Nat)
    (hu : s.user = t.user) (ha : s.authLocation = t.authLocation) :
    persistPick s = persistPick t ∧
    (rehydrate (initialAuthStore freshId) (persistPick s)).openIdParams
      = none ∧
    (rehydrate (initialAuthStore freshId) (persistPick s)).loginSubject
      = (initialAuthStore freshId).loginSubject ∧
    (initialAuthStore freshId).loginSubject.subscribers = [] := by
  refine ⟨?_, rfl, rfl, rfl⟩
  simp [persistPick, hu, ha]

/-- A second concrete store differing from `sampleStore` in both
`openIdParams` and the subject instance, but not in the persisted keys. -/
def sampleStoreVariant : AuthStoreState :=
  { user := some sampleUser
    openIdParams := none
    authLocation := none
    loginSubject := { instanceId := 9, subscribers := [] } }

/-- Witness for C10: the two concrete stores persist identically, and the
store rehydrated from the first has no openId context and the fresh
subject. -/
theorem persist_drops_openIdParams_and_loginSubject_witness :
    persistPick sampleStore = persistPick sampleStoreVariant ∧
    (rehydrate (initialAuthStore 5) (persistPick sampleStore)).openIdParams
      = none ∧
    (rehydrate (initialAuthStore 5) (persistPick sampleStore)).loginSubject
      = (initialAuthStore 5).loginSubject ∧
    (initialAuthStore 5).loginSubject.subscribers = [] :=
  persist_drops_openIdParams_and_loginSubject sampleStore sampleStoreVariant 5
    rfl rfl

/-- Secondary-factor availability flags read from `useMFAStore` by the
recovery route. -/
structure MFACapabilities where
  totp_available : Bool
  webauthn_available : Bool
  email_available : Bool
deriving Repr, DecidableEq

/-- Modelled from the spec: the i18n translation table behind
`LL.form.error.invalidCode()` is not among the sources; the spec requires a
visible, non-empty error message on every rejection. -/
def invalidCodeMessage : String := "Enter a valid code"

/-- Modelled from the spec: the translation behind
`LL.form.error.required()`, the message attached by the zod schema to an
empty code. -/
def requiredMessage : String := "This field is required"

/-- react-hook-form state of the single `code` field. -/
structure CodeFieldState where
  value : String
  error : Option String
deriving Repr, DecidableEq

/-- The `onError` handler of the recovery mutation: `resetField` puts the
field back to its empty default value, then `setError` attaches the
invalid-code message. -/
def onErrorHandler (st : CodeFieldState) : CodeFieldState :=
  let afterReset : CodeFieldState := { st with value := "" }
  { afterReset with error := some invalidCodeMessage }

/-- C4: after any failed transition the stored input value for the factor
is the empty string while the attached error message is non-empty; the
submitted value is never retained. -/
theorem onError_clears_value_and_sets_error (st : CodeFieldState) :
    (onErrorHandler st).value = "" ∧
    (onErrorHandler st).error = some invalidCodeMessage ∧
    invalidCodeMessage ≠ "" :=
  ⟨rfl, rfl, by decide⟩

/-- Result of pressing submit on the recovery form. -/
inductive SubmitAction where
  | validationFailed (message : String)
  | mutateCalled (code : String)
deriving Repr, DecidableEq

/-- The zod schema check on the code field: a string of length at least
one. -/
def zodCodeValid (code : String) : Bool :=
  decide (1 ≤ code.length)

/-- `handleSubmit(handleValidSubmit)`: the zod resolver runs first; only a
value passing the schema reaches `handleValidSubmit`, which calls `mutate`
on the trimmed values, so the verifier round-trip happens only then. -/
def handleSubmitCode (code : String) : SubmitAction :=
  if zodCodeValid code then SubmitAction.mutateCalled code.trim
  else SubmitAction.validationFailed requiredMessage

/-- The empty input value. -/
def emptyCode : String := ""

/-- A concrete valid recovery code for witnesses. -/
def sampleCode : String := "ABCDE"

/-- C5: submitting an empty code fails with the validation error and no
round-trip is attempted; `mutate` runs only for non-empty input. -/
theorem empty_code_fails_validation :
    handleSubmitCode emptyCode
      = SubmitAction.validationFailed requiredMessage ∧
    ∀ raw c, handleSubmitCode raw = SubmitAction.mutateCalled c →
      raw ≠ emptyCode := by
  refine ⟨rfl, ?_⟩
  intro raw c h hraw
  rw [hraw] at h
  exact SubmitAction.noConfusion h

/-- Witness for C5: a concrete non-empty code reaches `mutate`, hence is
not the empty input. -/
theorem empty_code_fails_validation_witness : sampleCode ≠ emptyCode :=
  empty_code_fails_validation.2 sampleCode sampleCode.trim rfl

/-- Observable phase of the mounted recovery route during one login
attempt. -/
inductive RecoveryPhase where
  | shown
  | challenging
  | succeeded
  | navigatedAway
deriving Repr, DecidableEq

/-- Events that can reach the recovery route after it mounts. -/
inductive RecoveryEvent where
  | submitForm (code : String)
  | verifierAccepts
  | verifierRejects
deriving Repr, DecidableEq

/-- The mount effect with an empty dependency list: it runs once when the
route is entered, before any user interaction; with no factor available it
navigates back to the factor-selection route, unmounting the component. -/
def mountEffect (caps : MFACapabilities) : RecoveryPhase :=
  if !caps.totp_available && !caps.webauthn_available && !caps.email_available
  then RecoveryPhase.navigatedAway
  else RecoveryPhase.shown

/-- One step of the mounted component.  After navigating away the component
is unmounted and processes nothing.  A submit passing the zod schema starts
the mutation round-trip; while it is pending the submit button is in its
loading state, so a further submit does not start a second one.  A verifier
acceptance ends the attempt via the published session event; a rejection
returns the form to its idle phase. -/
def recoveryStep (p : RecoveryPhase) (e : RecoveryEvent) : RecoveryPhase :=
  match p, e with
  | RecoveryPhase.navigatedAway, _ => RecoveryPhase.navigatedAway
  | RecoveryPhase.succeeded, _ => RecoveryPhase.succeeded
  | RecoveryPhase.shown, RecoveryEvent.submitForm code =>
      if zodCodeValid code then RecoveryPhase.challenging
      else RecoveryPhase.shown
  | RecoveryPhase.shown, _ => RecoveryPhase.shown
  | RecoveryPhase.challenging, RecoveryEvent.verifierAccepts =>
      RecoveryPhase.succeeded
  | RecoveryPhase.challenging, RecoveryEvent.verifierRejects =>
      RecoveryPhase.shown
  | RecoveryPhase.challenging, RecoveryEvent.submitForm _ =>
      RecoveryPhase.challenging

/-- The phase after mounting with the given capabilities and then processing
the events in order. -/
def recoveryRun (caps : MFACapabilities) (es : List RecoveryEvent) :
    RecoveryPhase :=
  es.foldl recoveryStep (mountEffect caps)

/-- Once navigated away, the component stays unmounted under any events. -/
theorem foldl_navigatedAway (es : List RecoveryEvent) :
    es.foldl recoveryStep RecoveryPhase.navigatedAway
      = RecoveryPhase.navigatedAway := by
  induction es with
  | nil => rfl
  | cons e es ih =>
      have hstep : recoveryStep RecoveryPhase.navigatedAway e
          = RecoveryPhase.navigatedAway := by cases e <;> rfl
      simpa [List.foldl, hstep] using ih

/-- C3: reaching the MFA recovery stage with an empty capability set
reroutes immediately at mount; no Challenging phase is ever observed for
the attempt, whatever events follow. -/
theorem empty_capabilities_reroutes (caps : MFACapabilities)
    (h : caps.totp_available = false ∧ caps.webauthn_available = false ∧
      caps.email_available = false) (es : List RecoveryEvent) :
    recoveryRun caps es = RecoveryPhase.navigatedAway ∧
    recoveryRun caps es ≠ RecoveryPhase.challenging := by
  obtain ⟨h1, h2, h3⟩ := h
  have hmount : mountEffect caps = RecoveryPhase.navigatedAway := by
    simp [mountEffect, h1, h2, h3]
  have hrun : recoveryRun caps es = RecoveryPhase.navigatedAway := by
    rw [recoveryRun, hmount]
    exact foldl_navigatedAway es
  exact ⟨hrun, by rw [hrun]; exact fun hc => RecoveryPhase.noConfusion hc⟩

/-- The capability set with no secondary factor available. -/
def noCaps : MFACapabilities :=
  { totp_available := false, webauthn_available := false
    email_available := false }

/-- Witness for C3: with no factor available, even a submit event leaves the
attempt rerouted and never challenging. -/
theorem empty_capabilities_reroutes_witness :
    recoveryRun noCaps [RecoveryEvent.submitForm sampleCode]
      = RecoveryPhase.navigatedAway ∧
    recoveryRun noCaps [RecoveryEvent.submitForm sampleCode]
      ≠ RecoveryPhase.challenging :=
  empty_capabilities_reroutes noCaps ⟨rfl, rfl, rfl⟩
    [RecoveryEvent.submitForm sampleCode]

/-- Modelled from the spec: the subscriber side of `loginSubject` (the
login page that consumes the published session event, resets login state
and navigates away) is not among the sources.  Per the spec, publication
consumes the LoginAttempt — the attempt is destroyed on success — so a
consumed attempt processes no further events. -/
inductive AttemptLife where
  | live
  | consumed
deriving Repr, DecidableEq

/-- Publication bookkeeping for one login attempt: whether the attempt is
still live, and how many times `loginSubject.next` ran for it. -/
structure PublishState where
  life : AttemptLife
  publishCount : Nat
deriving Repr, DecidableEq

/-- The `onSuccess` handler publishes the session event once and, via the
spec-modelled subscriber, consumes the attempt; every other event leaves
the publication count alone; a consumed attempt processes nothing. -/
def publishStep (s : PublishState) (e : RecoveryEvent) : PublishState :=
  match s.life with
  | AttemptLife.consumed => s
  | AttemptLife.live =>
    match e with
    | RecoveryEvent.verifierAccepts =>
        { life := AttemptLife.consumed, publishCount := s.publishCount + 1 }
    | _ => s

/-- A fresh login attempt: live, nothing published yet. -/
def freshAttempt : PublishState :=
  { life := AttemptLife.live, publishCount := 0 }

/-- The publication invariant is preserved by every step. -/
theorem publishStep_invariant (s : PublishState) (e : RecoveryEvent)
    (h : s.publishCount ≤ 1 ∧
      (s.life = AttemptLife.live → s.publishCount = 0)) :
    (publishStep s e).publishCount ≤ 1 ∧
    ((publishStep s e).life = AttemptLife.live →
      (publishStep s e).publishCount = 0) := by
  obtain ⟨hle, hlive⟩ := h
  cases hs : s.life with
  | consumed =>
      have hstep : publishStep s e = s := by simp [publishStep, hs]
      rw [hstep]
      exact ⟨hle, hlive⟩
  | live =>
      have h0 : s.publishCount = 0 := hlive hs
      cases e <;> simp [publishStep, hs, h0]

/-- At-most-once publication over any event list, from any state satisfying
the invariant. -/
theorem publish_invariant_run (es : List RecoveryEvent) (s : PublishState)
    (h : s.publishCount ≤ 1 ∧
      (s.life = AttemptLife.live → s.publishCount = 0)) :
    (es.foldl publishStep s).publishCount ≤ 1 ∧
    ((es.foldl publishStep s).life = AttemptLife.live →
      (es.foldl publishStep s).publishCount = 0) := by
  induction es generalizing s with
  | nil => exact h
  | cons e es ih => exact ih (publishStep s e) (publishStep_invariant s e h)

/-- C1: over any sequence of events on a single login attempt, the session
event is published at most once; the first publication consumes the
attempt, so a second publication is impossible. -/
theorem publish_at_most_once (es : List RecoveryEvent) :
    (es.foldl publishStep freshAttempt).publishCount ≤ 1 :=
  (publish_invariant_run es freshAttempt
    ⟨Nat.zero_le 1, fun _ => rfl⟩).1

/-- Result of one recovery-code verification. -/
inductive RecoveryResult where
  | accepted
  | alreadyUsed
  | invalidCode
deriving Repr, DecidableEq

/-- Modelled from the spec: the backend handler of the recovery endpoint
(the `auth.mfa.recovery` function used as `mutationFn`) is not among the
sources; only its caller is.  Per the spec, a recovery code is a single-use
secret: once consumed it can never again be accepted, and replay is
rejected with a distinguishable AlreadyUsed reason. -/
structure RecoveryVerifier where
  validCodes : List String
  consumed : List String
deriving Repr, DecidableEq

/-- One submission to the recovery verifier: an already consumed code is
rejected as AlreadyUsed; an unconsumed valid code is accepted and recorded
as consumed; anything else is invalid. -/
def verifyRecovery (st : RecoveryVerifier) (code : String) :
    RecoveryVerifier × RecoveryResult :=
  if code ∈ st.consumed then (st, RecoveryResult.alreadyUsed)
  else if code ∈ st.validCodes then
    ({ st with consumed := code :: st.consumed }, RecoveryResult.accepted)
  else (st, RecoveryResult.invalidCode)

/-- The verifier state after a sequence of submissions. -/
def runRecoverySubmissions (st : RecoveryVerifier) (codes : List String) :
    RecoveryVerifier :=
  codes.foldl (fun s c => (verifyRecovery s c).1) st

/-- A consumed code stays consumed across one further submission. -/
theorem consumed_mono_step (st : RecoveryVerifier) (c code : String)
    (h : c ∈ st.consumed) : c ∈ (verifyRecovery st code).1.consumed := by
  unfold verifyRecovery
  split
  · exact h
  · split
    · exact List.mem_cons_of_mem _ h
    · exact h

/-- A consumed code stays consumed across any sequence of submissions. -/
theorem consumed_mono_run (codes : List String) (st : RecoveryVerifier)
    (c : String) (h : c ∈ st.consumed) :
    c ∈ (runRecoverySubmissions st codes).consumed := by
  induction codes generalizing st with
  | nil => exact h
  | cons code codes ih =>
      exact ih (verifyRecovery st code).1 (consumed_mono_step st c code h)

/-- Submitting a consumed code always reports AlreadyUsed. -/
theorem verify_consumed_alreadyUsed (st : RecoveryVerifier) (c : String)
    (h : c ∈ st.consumed) :
    verifyRecovery st c = (st, RecoveryResult.alreadyUsed) := by
  unfold verifyRecovery
  rw [if_pos h]

/-- C2: once a recovery code is accepted, every later submission of that
same code — after any number of further submissions of any codes — yields
AlreadyUsed and never Accepted. -/
theorem consumed_code_always_alreadyUsed (st st2 : RecoveryVerifier)
    (code : String)
    (h : verifyRecovery st code = (st2, RecoveryResult.accepted))
    (codes : List String) :
    (verifyRecovery (runRecoverySubmissions st2 codes) code).2
      = RecoveryResult.alreadyUsed ∧
    (verifyRecovery (runRecoverySubmissions st2 codes) code).2
      ≠ RecoveryResult.accepted := by
  have hmem : code ∈ st2.consumed := by
    unfold verifyRecovery at h
    split at h
    · exact absurd (congrArg Prod.snd h) (by simp)
    · split at h
      · have hst : st2 = { st with consumed := code :: st.consumed } :=
          (congrArg Prod.fst h).symm
        rw [hst]
        exact List.mem_cons_self code st.consumed
      · exact absurd (congrArg Prod.snd h) (by simp)
  have hrun := consumed_mono_run codes st2 code hmem
  rw [verify_consumed_alreadyUsed _ _ hrun]
  exact ⟨rfl, by simp⟩

/-- A concrete issued recovery code. -/
def recoveryCodeA : String := "RC-ALPHA"

/-- A second concrete issued recovery code. -/
def recoveryCodeB : String := "RC-BETA"

/-- A verifier holding two issued, unconsumed codes. -/
def verifierStart : RecoveryVerifier :=
  { validCodes := [recoveryCodeA, recoveryCodeB], consumed := [] }

/-- The verifier right after `recoveryCodeA` was accepted. -/
def verifierAfterA : RecoveryVerifier :=
  { validCodes := [recoveryCodeA, recoveryCodeB], consumed := [recoveryCodeA] }

/-- Witness for C2: after `recoveryCodeA` is accepted and two further
submissions happen (one of them a replay), resubmitting it still yields
AlreadyUsed. -/
theorem consumed_code_always_alreadyUsed_witness :
    (verifyRecovery
        (runRecoverySubmissions verifierAfterA [recoveryCodeB, recoveryCodeA])
        recoveryCodeA).2 = RecoveryResult.alreadyUsed ∧
    (verifyRecovery
        (runRecoverySubmissions verifierAfterA [recoveryCodeB, recoveryCodeA])
        recoveryCodeA).2 ≠ RecoveryResult.accepted :=
  consumed_code_always_alreadyUsed verifierStart verifierAfterA recoveryCodeA
    (by decide) [recoveryCodeB, recoveryCodeA]

/-- Per-factor retry bookkeeping of the orchestrator. -/
structure FactorAttempt where
  count : Nat
  lockedOut : Bool
deriving Repr, DecidableEq

/-- Modelled from the spec: the retry ceiling and the LockedOut signal live
in the backend verifier, not among the sources.  Per the spec, selecting a
factor resets its attempt counter to zero. -/
def selectedFactor : FactorAttempt := { count := 0, lockedOut := false }

/-- One rejected submission: the counter is incremented and the factor is
locked out as soon as the counter reaches the configured ceiling. -/
def applyRejection (ceiling : Nat) (fa : FactorAttempt) : FactorAttempt :=
  { count := fa.count + 1
    lockedOut := fa.lockedOut || decide (ceiling ≤ fa.count + 1) }

/-- The factor state after k consecutive rejections from a fresh
selection. -/
def afterRejections (ceiling : Nat) : Nat → FactorAttempt
  | 0 => selectedFactor
  | k + 1 => applyRejection ceiling (afterRejections ceiling k)

/-- The counter counts the rejections. -/
theorem afterRejections_count (N k : Nat) :
    (afterRejections N k).count = k := by
  induction k with
  | zero => rfl
  | succ k ih => simp [afterRejections, applyRejection, ih]

/-- Lockout holds after k rejections exactly when k reached the ceiling. -/
theorem afterRejections_locked (N : Nat) (hN : 0 < N) (k : Nat) :
    (afterRejections N k).lockedOut = decide (N ≤ k) := by
  induction k with
  | zero =>
      have : ¬ N ≤ 0 := by omega
      simp [afterRejections, selectedFactor, this]
  | succ k ih =>
      rw [afterRejections, applyRejection, ih, afterRejections_count]
      rcases le_or_lt N k with h | h
      · have h2 : N ≤ k + 1 := Nat.le_succ_of_le h
        simp [h, h2]
      · have h2 : ¬ N ≤ k := by omega
        simp [h2]

/-- C6: lockout happens exactly at the Nth consecutive rejection for a
positive ceiling N: the state after k rejections is locked out iff N ≤ k;
in particular the rejection before the Nth does not lock, and the Nth
does. -/
theorem lockout_exactly_at_ceiling (N k : Nat) (hN : 0 < N) :
    ((afterRejections N k).lockedOut = true ↔ N ≤ k) ∧
    (afterRejections N (N - 1)).lockedOut = false ∧
    (afterRejections N N).lockedOut = true := by
  refine ⟨?_, ?_, ?_⟩
  · rw [afterRejections_locked N hN k]
    exact decide_eq_true_iff
  · rw [afterRejections_locked N hN (N - 1)]
    have : ¬ N ≤ N - 1 := by omega
    simp [this]
  · rw [afterRejections_locked N hN N]
    simp

/-- Witness for C6 at ceiling 5: four rejections do not lock the factor
out, the fifth does. -/
theorem lockout_exactly_at_ceiling_witness :
    (afterRejections 5 4).lockedOut = false ∧
    (afterRejections 5 5).lockedOut = true :=
  ⟨(lockout_exactly_at_ceiling 5 4 (by decide)).2.1,
    (lockout_exactly_at_ceiling 5 4 (by decide)).2.2⟩

/-- Where the client navigates after the session event. -/
inductive RedirectTarget where
  | openIdAllow (params : List (String × String))
  | enrollmentFlow (ticket : Nat)
  | defaultLanding
deriving Repr, DecidableEq

/-- The context carried through the whole login sequence: pending
third-party authorization parameters (the `openIdParams` of the auth store)
or a pending enrollment ticket. -/
structure CarriedContext where
  openIdParams : Option (List (String × String))
  enrollmentTicket : Option Nat
deriving Repr, DecidableEq

/-- The established session. -/
structure Session where
  userId : Nat
  issuedAt : Nat
deriving Repr, DecidableEq

/-- Modelled from the spec: the redirect resolution after login (the code
reading the store field commented with: If this is set, redirect user to
allow page and nowhere else) is not among the sources.  Per the spec,
pending third-party authorization parameters win, then an enrollment
ticket, and otherwise the default authenticated landing destination. -/
def resolveRedirect (_session : Session) (ctx : CarriedContext) :
    RedirectTarget :=
  match ctx.openIdParams with
  | some params => RedirectTarget.openIdAllow params
  | none =>
    match ctx.enrollmentTicket with
    | some t => RedirectTarget.enrollmentFlow t
    | none => RedirectTarget.defaultLanding

/-- C7: the resolver is a total deterministic function of exactly its two
inputs — equal input pairs give equal targets — and whenever the carried
context holds pending third-party authorization parameters the target is
the allow page, never the default landing destination. -/
theorem resolveRedirect_deterministic :
    (∀ (s s2 : Session) (c c2 : CarriedContext),
      s = s2 → c = c2 → resolveRedirect s c = resolveRedirect s2 c2) ∧
    (∀ (s : Session) (c : CarriedContext) (params : List (String × String)),
      c.openIdParams = some params →
        resolveRedirect s c = RedirectTarget.openIdAllow params ∧
        resolveRedirect s c ≠ RedirectTarget.defaultLanding) := by
  constructor
  · intro s s2 c c2 hs hc
    rw [hs, hc]
  · intro s c params h
    unfold resolveRedirect
    rw [h]
    exact ⟨rfl, fun hh => RedirectTarget.noConfusion hh⟩

/-- A concrete session for the resolver witness. -/
def sampleSession : Session := { userId := 1, issuedAt := 10 }

/-- A carried context holding pending third-party authorization
parameters. -/
def sampleOpenIdCtx : CarriedContext :=
  { openIdParams := some [], enrollmentTicket := none }

/-- Witness for C7: with a pending authorization context the resolver
yields the allow page and not the default landing destination. -/
theorem resolveRedirect_deterministic_witness :
    resolveRedirect sampleSession sampleOpenIdCtx
      = RedirectTarget.openIdAllow [] ∧
    resolveRedirect sampleSession sampleOpenIdCtx
      ≠ RedirectTarget.defaultLanding :=
  resolveRedirect_deterministic.2 sampleSession sampleOpenIdCtx [] rfl

/-- Round-trip bookkeeping for one attempt: whether a challenge round-trip
is outstanding (`isPending`) and how many verifier calls were made. -/
structure MutationGate where
  outstanding : Bool
  verifierCalls : Nat
deriving Repr, DecidableEq

/-- Result of a submit through the gate. -/
inductive GateResult where
  | started
  | alreadyInProgress
deriving Repr, DecidableEq

/-- Modelled from the spec: the loading behaviour of the shared defguard-ui
Button (the component receives the pending flag of the mutation as its
loading prop) is not among the sources.  Per the spec, Challenging is
exclusive: a second submit while a round-trip is outstanding fails with
AlreadyInProgress instead of racing, with no verifier call and no state
transition; otherwise the submit starts the single round-trip. -/
def gatedSubmit (st : MutationGate) (_code : String) :
    MutationGate × GateResult :=
  if st.outstanding then (st, GateResult.alreadyInProgress)
  else ({ outstanding := true, verifierCalls := st.verifierCalls + 1 },
    GateResult.started)

/-- C8: a submit issued while a round-trip is outstanding fails with
AlreadyInProgress, leaves the state unchanged and makes no second verifier
call. -/
theorem submit_while_outstanding_rejected (st : MutationGate) (code : String)
    (h : st.outstanding = true) :
    gatedSubmit st code = (st, GateResult.alreadyInProgress) ∧
    (gatedSubmit st code).1.verifierCalls = st.verifierCalls := by
  have hg : gatedSubmit st code = (st, GateResult.alreadyInProgress) := by
    unfold gatedSubmit
    rw [h]
    rfl
  exact ⟨hg, by rw [hg]⟩

/-- A gate with one round-trip outstanding after one verifier call. -/
def pendingGate : MutationGate := { outstanding := true, verifierCalls := 1 }

/-- Witness for C8: submitting through the pending gate changes nothing and
reports AlreadyInProgress. -/
theorem submit_while_outstanding_rejected_witness :
    gatedSubmit pendingGate sampleCode
      = (pendingGate, GateResult.alreadyInProgress) ∧
    (gatedSubmit pendingGate sampleCode).1.verifierCalls
      = pendingGate.verifierCalls :=
  submit_while_outstanding_rejected pendingGate sampleCode rfl
